import Mathlib

/-!
Verification of the partition identity / hashing subsystem of
`src/interface/partition_hashing.cpp` (oneDNN graph component).

The file embeds, shallowly:
  * the data model (`logical_tensor_t`, `op_t`, `key_t`),
  * `key_t::operator==` (from the source, `partition_hashing.cpp:51-96`),
  * `get_logical_tensor_hash` (source, lines 99-118),
  * `get_op_hash` (source, lines 120-126),
and, modelled from the spec where the corresponding headers
(`partition_hashing.hpp`, `utils.hpp`, the `logical_tensor_wrapper`
comparison and `op_t::operator==`) are not part of the shown sources:
  * `hash_combine` / `get_array_hash` (utility hash primitives),
  * tensor-descriptor equality `ltEq` (spec section 4.1),
  * operation-descriptor equality `opEq` (spec sections 3 and 4.2),
  * the key hash `hash_key` (spec section 4.5).

Machine integers (`size_t`, `int64_t`) are modelled as `Nat` / `Int` with
explicit reduction mod 2^64 where overflow matters.
-/

namespace PartitionHashing

/-- 2^64, the modulus of `size_t` arithmetic. -/
def U64 : Nat := 18446744073709551616

/-- Modelled from the spec: `utils::hash_combine` (its header `utils.hpp` is
not among the shown sources).  The spec only asks for a deterministic
seed/value combination ("combine `id`, a hash of the `dims` sequence, ...");
we use the standard seed-mixing formula
`seed XOR (v + 0x9e3779b9 + (seed << 6) + (seed >> 2))`, reduced mod 2^64. -/
def hash_combine (seed v : Nat) : Nat :=
  (seed ^^^ (v + 2654435769 + (seed <<< 6) + (seed >>> 2))) % U64

/-- Modelled from the spec: `utils::get_array_hash` (header not among the
shown sources): sequentially `hash_combine` every element of the array into
the seed. -/
def get_array_hash (seed : Nat) (a : List Nat) : Nat :=
  a.foldl hash_combine seed

/-- Two's-complement image of an `int64_t` value in `size_t`, as used when an
`int64_t` array element (a dim or a stride) is fed to the hash. -/
def natOfInt (i : Int) : Nat :=
  (i % (18446744073709551616 : Int)).toNat

/-- Numeric tag of `layout_type::undef`. -/
def layout_undef : Nat := 0

/-- Numeric tag of `layout_type::any`. -/
def layout_any : Nat := 1

/-- Numeric tag of `layout_type::strided`. -/
def layout_strided : Nat := 2

/-- Numeric tag of the opaque layout case (`layout_type::opaque`). -/
def layout_opq : Nat := 3

/-- The C API struct `logical_tensor_t` (shape/type/layout metadata of one
tensor).  `dims` holds exactly the `ndims` meaningful entries of the C
fixed-size array; the C union over `strides` / `layout_id` is modelled by
carrying both fields, only one of which is meaningful per `layout_type`.
`layout_type` is a raw numeric tag, as in the C struct, so that the
`default:` branch of the source's `switch` is representable. -/
structure logical_tensor_t where
  id : Nat
  dims : List Int
  data_type : Nat
  layout_type : Nat
  strides : List Int
  layout_id : Nat
  deriving DecidableEq, Repr, Inhabited

/-- Operation descriptor.  Modelled from the spec (the class `op_t` lives in
`partition.hpp`, which is not among the shown sources): a stable identifier,
a kind tag, and — conceptually — its attributes, which the spec excludes
from the identity contract at this layer. -/
structure op_t where
  id : Nat
  kind : Nat
  attrs : List Nat
  deriving DecidableEq, Repr, Inhabited

/-- Modelled from the spec: tensor-descriptor equality
(`logical_tensor_wrapper::operator==`, whose header is not among the shown
sources; spec section 4.1): `id` equal, `dims` equal element-wise (the
unresolved-dimension sentinel only matches itself, i.e. plain equality),
`element_type` equal, and layout equal by case — `undefined`/`any` compare
equal to themselves only, `strided` compares its strides sequence, the
opaque case compares its `layout_id`. -/
def ltEq (a b : logical_tensor_t) : Bool :=
  a.id == b.id && a.dims == b.dims && a.data_type == b.data_type
    && a.layout_type == b.layout_type
    && (if a.layout_type == layout_strided then a.strides == b.strides
        else if a.layout_type == layout_opq then a.layout_id == b.layout_id
        else true)

/-- Modelled from the spec: operation-descriptor equality
(`op_t::operator==`, defined in a header not among the shown sources; spec
sections 3 and 4.2): `op_id` equality AND `kind` equality; attributes are
intentionally not part of the identity contract. -/
def opEq (a b : op_t) : Bool :=
  a.id == b.id && a.kind == b.kind

/-- The partition key (`key_t`), fields in the order of the source class:
partition id, operation collection, engine kind, creating-thread id, then
the value-snapshotted input and output descriptor vectors. -/
structure key_t where
  partition_id_ : Nat
  ops_ : List op_t
  engine_kind_ : Nat
  thread_id_ : Nat
  ins_ : List logical_tensor_t
  outs_ : List logical_tensor_t
  deriving DecidableEq, Repr

/-- `key_t::key_t` (source, lines 27-43): records partition id, ops, engine
kind and the calling thread's id, then copies every input/output descriptor
by value.  Pointer indirection of the C++ signature is modelled by
`key_t.ofPtrs` below; here the dereferenced descriptor values are passed
directly. -/
def key_t.mk' (partition_id : Nat) (engine_kind : Nat) (ops : List op_t)
    (ins outs : List logical_tensor_t) (tid : Nat) : key_t :=
  { partition_id_ := partition_id
    ops_ := ops
    engine_kind_ := engine_kind
    thread_id_ := tid
    ins_ := ins.map id
    outs_ := outs.map id }

/-- Dereference of a descriptor pointer, modelled as an index into a store
of descriptor values. -/
def deref (store : List logical_tensor_t) (p : Nat) : logical_tensor_t :=
  store.getD p default

/-- `key_t::key_t` at the pointer level: the constructor receives vectors of
pointers (`const logical_tensor_t *`) into some store of descriptors and
copies each pointed-to value (`ins_.emplace_back(*in)`). -/
def key_t.ofPtrs (partition_id : Nat) (engine_kind : Nat) (ops : List op_t)
    (store : List logical_tensor_t) (insP outsP : List Nat) (tid : Nat) :
    key_t :=
  { partition_id_ := partition_id
    ops_ := ops
    engine_kind_ := engine_kind
    thread_id_ := tid
    ins_ := insP.map (deref store)
    outs_ := outsP.map (deref store) }

/-- `key_t::operator==` (source, lines 51-96): sizes of the three
collections and the scalar fields must agree, then every operation of the
left key must find an `opEq`-equal one somewhere in the right key's ops, and
every input (resp. output) descriptor of the left key must find an
`ltEq`-equal one somewhere in the right key's inputs (resp. outputs) — an
existence check from left into right, exactly as the source's
`std::find_if` loops (with the right-hand element on the left of the
element comparison, as in the source's lambda). -/
def key_eq (a b : key_t) : Bool :=
  a.ops_.length == b.ops_.length && a.ins_.length == b.ins_.length
    && a.outs_.length == b.outs_.length
    && a.partition_id_ == b.partition_id_
    && a.engine_kind_ == b.engine_kind_
    && a.ops_.all (fun op => b.ops_.any (fun rop => opEq op rop))
    && a.ins_.all (fun l => b.ins_.any (fun r => ltEq r l))
    && a.outs_.all (fun l => b.outs_.any (fun r => ltEq r l))

/-- `get_logical_tensor_hash` (source, lines 99-118): combine `id`, the
`dims` array, `data_type`, then switch on `layout_type`: `undef` and `any`
fall through with no extra term, `strided` combines the strides array,
the opaque case combines `layout_id`, and any other tag hits
`assertm(false, "unknown layout_type")`, modelled as `none`. -/
def get_logical_tensor_hash (lt : logical_tensor_t) : Option Nat :=
  let s0 := hash_combine 0 lt.id
  let s1 := get_array_hash s0 (lt.dims.map natOfInt)
  let s2 := hash_combine s1 lt.data_type
  if lt.layout_type == layout_undef || lt.layout_type == layout_any then
    some s2
  else if lt.layout_type == layout_strided then
    some (get_array_hash s2 (lt.strides.map natOfInt))
  else if lt.layout_type == layout_opq then
    some (hash_combine s2 lt.layout_id)
  else
    none

/-- The id/dims/data_type part of `get_logical_tensor_hash`, common to every
layout case. -/
def ltHashBase (i : Nat) (dims : List Int) (dt : Nat) : Nat :=
  hash_combine (get_array_hash (hash_combine 0 i) (dims.map natOfInt)) dt

/-- `get_op_hash` (source, lines 120-126): combine `op.get_id()` and
`op.get_kind()` into a zero seed. -/
def get_op_hash (op : op_t) : Nat :=
  hash_combine (hash_combine 0 op.id) op.kind

/-- Total extension of the tensor hash used when summing per-descriptor
contributions (well-formed descriptors never take the `none` branch). -/
def ltHashD (lt : logical_tensor_t) : Nat :=
  (get_logical_tensor_hash lt).getD 0

/-- Modelled from the spec: the key hash (`std::hash<key_t>` lives in
`partition_hashing.hpp`, which is not among the shown sources; spec section
4.5): combine `partition_id`, the size of `ops` and a commutative (summed)
accumulation of the members' `get_op_hash` contributions, `engine_kind`, and
order-insensitive (summed) accumulations of the tensor-descriptor hashes of
`inputs` and of `outputs`. -/
def hash_key (k : key_t) : Nat :=
  let s0 := hash_combine 0 k.partition_id_
  let s1 := hash_combine s0 k.ops_.length
  let s2 := hash_combine s1 ((k.ops_.map get_op_hash).sum % U64)
  let s3 := hash_combine s2 k.engine_kind_
  let s4 := hash_combine s3 ((k.ins_.map ltHashD).sum % U64)
  hash_combine s4 ((k.outs_.map ltHashD).sum % U64)

/-! ### Basic lemmas about the embedded operations -/

/-- A list is a permutation of any list it is equal to. -/
lemma perm_of_eq {α : Type} {l1 l2 : List α} (h : l1 = l2) : l1.Perm l2 := by
  subst h
  exact List.Perm.refl l1

/-- Tensor-descriptor equality is reflexive. -/
lemma ltEq_refl (a : logical_tensor_t) : ltEq a a = true := by
  simp [ltEq]

/-- Operation-descriptor equality is reflexive. -/
lemma opEq_refl (a : op_t) : opEq a a = true := by
  simp [opEq]

/-- Key equality holds whenever the scalar fields agree and each of the
three collections of the right key is a permutation of the left key's. -/
lemma key_eq_of_perms (a b : key_t)
    (hpid : a.partition_id_ = b.partition_id_)
    (hek : a.engine_kind_ = b.engine_kind_)
    (hops : a.ops_.Perm b.ops_)
    (hins : a.ins_.Perm b.ins_)
    (houts : a.outs_.Perm b.outs_) : key_eq a b = true := by
  simp only [key_eq, Bool.and_eq_true, beq_iff_eq, List.all_eq_true,
    List.any_eq_true]
  refine ⟨⟨⟨⟨⟨⟨⟨hops.length_eq, hins.length_eq⟩, houts.length_eq⟩, hpid⟩,
    hek⟩, ?_⟩, ?_⟩, ?_⟩
  · intro op hop
    exact ⟨op, hops.mem_iff.mp hop, opEq_refl op⟩
  · intro l hl
    exact ⟨l, hins.mem_iff.mp hl, ltEq_refl l⟩
  · intro l hl
    exact ⟨l, houts.mem_iff.mp hl, ltEq_refl l⟩

/-- The key hash is invariant under permuting the three collections (and
ignores `thread_id_`). -/
lemma hash_key_of_perms (a b : key_t)
    (hpid : a.partition_id_ = b.partition_id_)
    (hek : a.engine_kind_ = b.engine_kind_)
    (hops : a.ops_.Perm b.ops_)
    (hins : a.ins_.Perm b.ins_)
    (houts : a.outs_.Perm b.outs_) : hash_key a = hash_key b := by
  simp only [hash_key, hpid, hek, hops.length_eq,
    (hops.map get_op_hash).sum_eq, (hins.map ltHashD).sum_eq,
    (houts.map ltHashD).sum_eq]

/-! ### Concrete descriptors used by counterexamples and witnesses -/

/-- A strided f32-like 2x3 tensor descriptor. -/
def tX : logical_tensor_t := ⟨1, [2, 3], 4, layout_strided, [3, 1], 0⟩

/-- Like `tX` but with a different tensor id, so `ltEq tX tY = false`. -/
def tY : logical_tensor_t := ⟨2, [2, 3], 4, layout_strided, [3, 1], 0⟩

/-- A strided 2x4 tensor descriptor used as an output. -/
def tZ : logical_tensor_t := ⟨3, [2, 4], 4, layout_strided, [4, 1], 0⟩

/-- A sample operation descriptor. -/
def opA : op_t := ⟨42, 7, []⟩

/-- A second sample operation descriptor. -/
def opB : op_t := ⟨43, 8, []⟩

/-- A third sample operation descriptor. -/
def opC : op_t := ⟨44, 9, []⟩

/-- Key with duplicated input descriptor `[tX, tX]`. -/
def c1a : key_t := ⟨10, [opA], 1, 111, [tX, tX], [tZ]⟩

/-- Key identical to `c1a` except its inputs are `[tX, tY]`. -/
def c1b : key_t := ⟨10, [opA], 1, 222, [tX, tY], [tZ]⟩

/-- Key with duplicated input descriptor, partition id 11. -/
def c2a : key_t := ⟨11, [opA], 1, 111, [tX, tX], [tZ]⟩

/-- Key identical to `c2a` except its inputs are `[tX, tY]`. -/
def c2b : key_t := ⟨11, [opA], 1, 111, [tX, tY], [tZ]⟩

/-- Key with duplicated input descriptor, partition id 12. -/
def c3a : key_t := ⟨12, [opB], 2, 111, [tX, tX], [tZ]⟩

/-- Key identical to `c3a` except its inputs are `[tX, tY]`. -/
def c3b : key_t := ⟨12, [opB], 2, 111, [tX, tY], [tZ]⟩

/-- Key with inputs `[tX, tY]`, partition id 20. -/
def c4a : key_t := ⟨20, [opA], 1, 111, [tX, tY], [tZ]⟩

/-- Like `c4a` but with the inputs reordered to `[tY, tX]` and a different
creating thread. -/
def c4b : key_t := ⟨20, [opA], 1, 333, [tY, tX], [tZ]⟩

/-- Key with ops `[opA, opB, opC]`, partition id 21. -/
def c5a : key_t := ⟨21, [opA, opB, opC], 1, 111, [tX], [tZ]⟩

/-- Like `c5a` but with the ops reordered to `[opC, opA, opB]`. -/
def c5b : key_t := ⟨21, [opC, opA, opB], 1, 111, [tX], [tZ]⟩

/-! ### The claims -/

/-- Claim C1: the spec's invariant says that whenever two partition keys
compare equal, their hashes agree.  The code violates it: with inputs
`[tX, tX]` versus `[tX, tY]` (`tX` and `tY` unequal), `key_t::operator==`
accepts the pair as equal — each left entry finds a match on the right and
duplicates are never checked — yet any hash that separates `tX` from `tY`
(the spec's own order-insensitive accumulation included) gives the two keys
different fingerprints. -/
theorem C1_hash_equality_agreement_fails :
    key_eq c1a c1b = true ∧ hash_key c1a ≠ hash_key c1b := by
  decide

/-- Claim C2: the spec says `a == b` iff `b == a`.  The code's equality is
an existence check from left into right only, so it is not symmetric:
`key_eq c2a c2b = true` (every entry of `[tX, tX]` finds a match in
`[tX, tY]`) while `key_eq c2b c2a = false` (`tY` finds no match in
`[tX, tX]`). -/
theorem C2_symmetry_fails :
    key_eq c2a c2b = true ∧ key_eq c2b c2a = false := by
  decide

/-- Claim C3: the spec's concrete test demands that keys with inputs
`[tX, tX]` and `[tX, tY]` (`tX` and `tY` unequal, all other fields shared)
compare unequal in both directions.  The code fails the test in one
direction: the `[tX, tX]` key compares equal to the `[tX, tY]` key, and only
the reverse comparison is unequal. -/
theorem C3_duplicate_inputs_compare_equal :
    key_eq c3a c3b = true ∧ key_eq c3b c3a = false := by
  decide

/-- Claim C4: input/output matching in key equality is existence-based, not
positional: keys agreeing on partition id, engine kind and ops whose
input (resp. output) sequences are permutations of each other compare
equal, in both directions. -/
theorem C4_permuted_tensors_compare_equal (a b : key_t)
    (hpid : a.partition_id_ = b.partition_id_)
    (hek : a.engine_kind_ = b.engine_kind_)
    (hops : a.ops_ = b.ops_)
    (hins : a.ins_.Perm b.ins_)
    (houts : a.outs_.Perm b.outs_) :
    key_eq a b = true ∧ key_eq b a = true :=
  ⟨key_eq_of_perms a b hpid hek (perm_of_eq hops) hins houts,
   key_eq_of_perms b a hpid.symm hek.symm (perm_of_eq hops).symm
     hins.symm houts.symm⟩

/-- Witness for C4 at concrete keys: inputs `[tX, tY]` versus `[tY, tX]`. -/
theorem C4_permuted_tensors_compare_equal_witness :
    key_eq c4a c4b = true ∧ key_eq c4b c4a = true :=
  C4_permuted_tensors_compare_equal c4a c4b rfl rfl rfl (by decide) (by decide)

/-- Claim C5: op-set equality is order-insensitive: a key built from ops
`[opA, opB, opC]` equals one built from `[opC, opA, opB]` (any permutation
of the ops), with the same partition id, engine kind and tensors, in both
directions. -/
theorem C5_permuted_ops_compare_equal (a b : key_t)
    (hpid : a.partition_id_ = b.partition_id_)
    (hek : a.engine_kind_ = b.engine_kind_)
    (hops : a.ops_.Perm b.ops_)
    (hins : a.ins_ = b.ins_)
    (houts : a.outs_ = b.outs_) :
    key_eq a b = true ∧ key_eq b a = true :=
  ⟨key_eq_of_perms a b hpid hek hops (perm_of_eq hins)
     (perm_of_eq houts),
   key_eq_of_perms b a hpid.symm hek.symm hops.symm
     (perm_of_eq hins).symm (perm_of_eq houts).symm⟩

/-- Witness for C5 at concrete keys: ops `[opA, opB, opC]` versus
`[opC, opA, opB]`. -/
theorem C5_permuted_ops_compare_equal_witness :
    key_eq c5a c5b = true ∧ key_eq c5b c5a = true :=
  C5_permuted_ops_compare_equal c5a c5b rfl rfl (by decide) rfl rfl

/-- Claim C6: the creating-thread identifier is excluded from key identity:
two keys agreeing on partition id, ops, engine kind, inputs and outputs but
built on (possibly) different threads compare equal in both directions and
have equal hashes. -/
theorem C6_thread_id_excluded (pid ek : Nat) (ops : List op_t)
    (ins outs : List logical_tensor_t) (t1 t2 : Nat) :
    key_eq ⟨pid, ops, ek, t1, ins, outs⟩ ⟨pid, ops, ek, t2, ins, outs⟩ = true
      ∧ key_eq ⟨pid, ops, ek, t2, ins, outs⟩ ⟨pid, ops, ek, t1, ins, outs⟩
          = true
      ∧ hash_key ⟨pid, ops, ek, t1, ins, outs⟩
          = hash_key ⟨pid, ops, ek, t2, ins, outs⟩ :=
  ⟨key_eq_of_perms _ _ rfl rfl (List.Perm.refl _) (List.Perm.refl _)
     (List.Perm.refl _),
   key_eq_of_perms _ _ rfl rfl (List.Perm.refl _) (List.Perm.refl _)
     (List.Perm.refl _),
   rfl⟩

/-- Claim C7: `get_logical_tensor_hash` combines exactly the tensor's id,
dims and element type (`ltHashBase`), plus — by layout case — the strides
sequence for the strided layout or the layout id for the opaque layout,
while the undefined and any layouts contribute no extra term; consequently
two tensors differing only in layout undefined versus any hash alike. -/
theorem C7_tensor_hash_structure (i : Nat) (dims : List Int) (dt : Nat)
    (strides : List Int) (lid : Nat) :
    get_logical_tensor_hash ⟨i, dims, dt, layout_undef, strides, lid⟩
        = some (ltHashBase i dims dt)
      ∧ get_logical_tensor_hash ⟨i, dims, dt, layout_any, strides, lid⟩
          = some (ltHashBase i dims dt)
      ∧ get_logical_tensor_hash ⟨i, dims, dt, layout_strided, strides, lid⟩
          = some (get_array_hash (ltHashBase i dims dt) (strides.map natOfInt))
      ∧ get_logical_tensor_hash ⟨i, dims, dt, layout_opq, strides, lid⟩
          = some (hash_combine (ltHashBase i dims dt) lid)
      ∧ get_logical_tensor_hash ⟨i, dims, dt, layout_undef, strides, lid⟩
          = get_logical_tensor_hash ⟨i, dims, dt, layout_any, strides, lid⟩ :=
  ⟨rfl, rfl, rfl, rfl, rfl⟩

/-- Claim C8: `get_op_hash` is the hash combination of the op's id and kind
and depends on nothing else: two operations with equal id and equal kind
hash alike, whatever their attributes. -/
theorem C8_op_hash_id_kind_only :
    (∀ op : op_t, get_op_hash op = hash_combine (hash_combine 0 op.id) op.kind)
      ∧ ∀ a b : op_t, a.id = b.id → a.kind = b.kind →
          get_op_hash a = get_op_hash b :=
  ⟨fun _ => rfl, fun a b h1 h2 => by simp [get_op_hash, h1, h2]⟩

/-- Witness for C8: two ops with id 5 and kind 6 but different attributes
hash alike. -/
theorem C8_op_hash_id_kind_only_witness :
    get_op_hash ⟨5, 6, [1, 2]⟩ = get_op_hash ⟨5, 6, [9]⟩ :=
  C8_op_hash_id_kind_only.2 ⟨5, 6, [1, 2]⟩ ⟨5, 6, [9]⟩ rfl rfl

/-- Claim C9: key construction value-snapshots every input/output
descriptor: keys built from any pointers (modelled as store indices) to
equal descriptor values — with the same partition id, engine kind and ops,
on any threads — compare equal in both directions and hash alike; the
constructor is a pure function of its arguments, so the pointed-to store is
left unchanged. -/
theorem C9_ctor_value_snapshot (pid ek : Nat) (ops : List op_t)
    (store1 store2 : List logical_tensor_t)
    (insP1 insP2 outsP1 outsP2 : List Nat) (t1 t2 : Nat)
    (hins : insP1.map (deref store1) = insP2.map (deref store2))
    (houts : outsP1.map (deref store1) = outsP2.map (deref store2)) :
    key_eq (key_t.ofPtrs pid ek ops store1 insP1 outsP1 t1)
        (key_t.ofPtrs pid ek ops store2 insP2 outsP2 t2) = true
      ∧ key_eq (key_t.ofPtrs pid ek ops store2 insP2 outsP2 t2)
          (key_t.ofPtrs pid ek ops store1 insP1 outsP1 t1) = true
      ∧ hash_key (key_t.ofPtrs pid ek ops store1 insP1 outsP1 t1)
          = hash_key (key_t.ofPtrs pid ek ops store2 insP2 outsP2 t2) := by
  have pins : (insP1.map (deref store1)).Perm (insP2.map (deref store2)) :=
    perm_of_eq hins
  have pouts : (outsP1.map (deref store1)).Perm (outsP2.map (deref store2)) :=
    perm_of_eq houts
  exact ⟨key_eq_of_perms _ _ rfl rfl (List.Perm.refl _) pins pouts,
    key_eq_of_perms _ _ rfl rfl (List.Perm.refl _) pins.symm pouts.symm,
    hash_key_of_perms _ _ rfl rfl (List.Perm.refl _) pins pouts⟩

/-- Witness for C9: two stores holding equal descriptor values at different
indices, addressed through different pointer lists, on different threads. -/
theorem C9_ctor_value_snapshot_witness :
    key_eq (key_t.ofPtrs 30 1 [opA] [tX, tY] [0, 1] [1] 111)
        (key_t.ofPtrs 30 1 [opA] [tY, tX, tZ] [1, 0] [0] 222) = true
      ∧ key_eq (key_t.ofPtrs 30 1 [opA] [tY, tX, tZ] [1, 0] [0] 222)
          (key_t.ofPtrs 30 1 [opA] [tX, tY] [0, 1] [1] 111) = true
      ∧ hash_key (key_t.ofPtrs 30 1 [opA] [tX, tY] [0, 1] [1] 111)
          = hash_key (key_t.ofPtrs 30 1 [opA] [tY, tX, tZ] [1, 0] [0] 222) :=
  C9_ctor_value_snapshot 30 1 [opA] [tX, tY] [tY, tX, tZ] [0, 1] [1, 0]
    [1] [0] 111 222 (by decide) (by decide)

/-- Claim C10: `get_logical_tensor_hash` is total over well-formed layouts:
for every descriptor whose layout tag is one of undef, any, strided or the
opaque tag, the function returns a hash without reaching the
"unknown layout_type" assertion branch (modelled as `none`). -/
theorem C10_tensor_hash_total (lt : logical_tensor_t)
    (h : lt.layout_type = layout_undef ∨ lt.layout_type = layout_any
      ∨ lt.layout_type = layout_strided ∨ lt.layout_type = layout_opq) :
    (get_logical_tensor_hash lt).isSome = true := by
  rcases h with h | h | h | h <;>
    simp [get_logical_tensor_hash, h, layout_undef, layout_any,
      layout_strided, layout_opq]

/-- Witness for C10 at a strided descriptor. -/
theorem C10_tensor_hash_total_witness :
    (get_logical_tensor_hash tZ).isSome = true :=
  C10_tensor_hash_total tZ (by decide)

end PartitionHashing
